import Mathlib

/-!
Shallow embedding of `src/signaling_server.py` (class `SignalingServer`).

The server keeps a registry `self.rooms : dict[str, room]` where each room is
`{'streamer': None | ws, 'viewers': set()}`.  The per-connection coroutine
`websocket_handler` joins the connection to a room (rejecting a second
streamer), runs a receive loop forwarding TEXT frames between the streamer
and the viewers, and deregisters the connection in a `finally` block.
`health_handler` reports a snapshot of the registry.

Connections are modelled by their Python object identity (a natural number).
The external JSON codec (`json.loads`) is modelled by letting each inbound
TEXT frame carry its decode result (`none` for `json.JSONDecodeError`,
`some j` for a successfully decoded value `j`); the transport's `send_str`
is modelled by a per-frame predicate `fails` saying which target connections
raise on send.
-/

/-- A connection handle (`ws`); Python object identity modelled as a natural number. -/
abbrev Conn := Nat

/-- Structured data values as produced by the external JSON decoder. -/
inductive Json where
  | null
  | bool (b : Bool)
  | num (n : Int)
  | str (s : String)
  | arr (elems : List Json)
  | obj (fields : List (String × Json))

/-- Whether a decoded value is a mapping (a Python `dict`). -/
def Json.isObj : Json → Bool
  | .obj _ => true
  | _ => false

/-- Models `data.get('type')` (line 50): defined only on a mapping, where it returns
the value stored under the key, or Python `None` when absent; on any other decoded
value the attribute lookup raises `AttributeError` (modelled by the outer `none`). -/
def Json.dictGet (j : Json) (key : String) : Option (Option Json) :=
  match j with
  | .obj fields => some (fields.lookup key)
  | _ => none

/-- State of one room: `{'streamer': None, 'viewers': set()}` (line 29).  The
Python `set` of viewers is modelled as a duplicate-free list of connection
identities (`set.add` inserts only when absent, `set.discard` erases). -/
structure Room where
  streamer : Option Conn
  viewers : List Conn
deriving DecidableEq

/-- The fresh room installed on first access to a room id (line 29). -/
def Room.fresh : Room := ⟨none, []⟩

/-- Outcome of the registration step of `websocket_handler`. -/
inductive JoinResult where
  | accepted
  | rejected
deriving DecidableEq

/-- Registration step of `websocket_handler` (lines 33–43): a connection with
`type=streamer` takes the streamer slot if it is empty and is rejected otherwise
(`if room['streamer']`); any other `type` is added to the viewer set. -/
def joinRoom (room : Room) (client_type : String) (ws : Conn) : Room × JoinResult :=
  if client_type = "streamer" then
    match room.streamer with
    | some _ => (room, .rejected)
    | none => ({ room with streamer := some ws }, .accepted)
  else
    ({ room with viewers := room.viewers.insert ws }, .accepted)

/-- The structured rejection object of line 36:
`json.dumps({'type': 'error', 'message': 'Room already has a streamer'})`. -/
def rejectionMessage : Json :=
  .obj [("type", .str "error"), ("message", .str "Room already has a streamer")]

/-- Processing of one TEXT frame (lines 48–73).  `decoded` is the result of
`json.loads(msg.data)`; `raw` is `msg.data` itself; `fails c` says whether
`send_str` to connection `c` raises for this frame.  Returns the updated room
and the list of successful deliveries `(recipient, payload)`.  A decode failure
(line 70) and the `AttributeError` from `.get` on a non-mapping (caught at
line 72) both leave the room untouched and deliver nothing. -/
def handleText (room : Room) (client_type : String) (decoded : Option Json)
    (raw : String) (fails : Conn → Bool) : Room × List (Conn × String) :=
  match decoded with
  | none => (room, [])
  | some data =>
    match data.dictGet "type" with
    | none => (room, [])
    | some _ =>
      if client_type = "streamer" then
        let kept := room.viewers.filter (fun v => !fails v)
        ({ room with viewers := kept }, kept.map (fun v => (v, raw)))
      else
        match room.streamer with
        | some s =>
          if fails s then ({ room with streamer := none }, [])
          else (room, [(s, raw)])
        | none => (room, [])

/-- One step observed by `async for msg in ws`: a TEXT frame (carrying its decode
result and the send-failure injection for its fan-out), an ERROR frame (line 75,
`break`), a frame of another type (skipped), or an exception raised by the
iteration itself (caught by the outer `except` at line 79). -/
inductive InMsg where
  | text (raw : String) (decoded : Option Json) (fails : Conn → Bool)
  | wsError
  | otherFrame
  | transportFault

/-- The receive loop (lines 45–77): TEXT frames go through `handleText`; an ERROR
frame breaks out; a transport fault ends the loop via the outer `except`; the
loop also ends when the stream is exhausted (clean close). -/
def receiveLoop (client_type : String) : Room → List InMsg → Room × List (Conn × String)
  | room, [] => (room, [])
  | room, .text raw dec fails :: rest =>
      let step := handleText room client_type dec raw fails
      let restOut := receiveLoop client_type step.1 rest
      (restOut.1, step.2 ++ restOut.2)
  | room, .wsError :: _ => (room, [])
  | room, .otherFrame :: rest => receiveLoop client_type room rest
  | room, .transportFault :: _ => (room, [])

/-- The `finally` block of `websocket_handler` (lines 81–88): the streamer slot is
cleared only when it still holds this very connection; otherwise the connection is
discarded from the viewer set. -/
def cleanupRoom (room : Room) (client_type : String) (ws : Conn) : Room :=
  if client_type = "streamer" ∧ room.streamer = some ws then
    { room with streamer := none }
  else
    { room with viewers := room.viewers.erase ws }

/-- Observable outcome of one run of `websocket_handler` over a single room. -/
structure HandlerResult where
  room : Room
  sends : List (Conn × String)
  errorToClient : Option Json
  closedByServer : Bool
  leaveRuns : Nat

/-- One run of `websocket_handler` (lines 20–90) against the room named by the
`room` query parameter: register, then either send the rejection object and close
(no cleanup), or run the receive loop and execute the `finally` cleanup exactly
once whatever ended the loop. -/
def websocket_handler (room0 : Room) (client_type : String) (ws : Conn)
    (msgs : List InMsg) : HandlerResult :=
  let joined := joinRoom room0 client_type ws
  match joined.2 with
  | .rejected =>
      { room := joined.1, sends := [], errorToClient := some rejectionMessage,
        closedByServer := true, leaveRuns := 0 }
  | .accepted =>
      let out := receiveLoop client_type joined.1 msgs
      { room := cleanupRoom out.1 client_type ws, sends := out.2,
        errorToClient := none, closedByServer := false, leaveRuns := 1 }

/-- The registry `self.rooms`, a Python dict keyed by room id. -/
abbrev Registry := List (String × Room)

/-- Lazy room creation (lines 28–29): `if room_id not in self.rooms: ...`. -/
def ensureRoom (reg : Registry) (room_id : String) : Registry :=
  if (reg.lookup room_id).isSome then reg else reg ++ [(room_id, Room.fresh)]

/-- Writing back the mutated room object under its id. -/
def setRoom (reg : Registry) (room_id : String) (room : Room) : Registry :=
  reg.map (fun p => if p.1 = room_id then (room_id, room) else p)

/-- A registry-level event: a connection's registration, one of its TEXT frames,
or its disconnection cleanup, each acting on the room named by `room_id`. -/
inductive Event where
  | connect (room_id client_type : String) (ws : Conn)
  | frame (room_id client_type : String) (raw : String) (decoded : Option Json)
      (fails : Conn → Bool)
  | disconnect (room_id client_type : String) (ws : Conn)

/-- Effect of one event on the registry, as performed by `websocket_handler`. -/
def stepEvent (reg : Registry) : Event → Registry
  | .connect room_id ct ws =>
      let reg1 := ensureRoom reg room_id
      match reg1.lookup room_id with
      | some room => setRoom reg1 room_id (joinRoom room ct ws).1
      | none => reg1
  | .frame room_id ct raw dec fails =>
      match reg.lookup room_id with
      | some room => setRoom reg room_id (handleText room ct dec raw fails).1
      | none => reg
  | .disconnect room_id ct ws =>
      match reg.lookup room_id with
      | some room => setRoom reg room_id (cleanupRoom room ct ws)
      | none => reg

/-- Registry after a sequence of events. -/
def runEvents (reg : Registry) (evs : List Event) : Registry :=
  evs.foldl stepEvent reg

/-- Number of connections recorded as publisher of a room: the `streamer` field
holds a single optional reference. -/
def publisherCount (room : Room) : Nat :=
  match room.streamer with
  | none => 0
  | some _ => 1

/-- The health check endpoint (lines 92–98): reports `len(self.rooms)` and
`sum(len(room['viewers']) + (1 if room['streamer'] else 0) for room in
self.rooms.values())`. -/
def health_handler (reg : Registry) : Json :=
  .obj [("status", .str "ok"),
        ("rooms", .num (Int.ofNat reg.length)),
        ("active_connections",
          .num (Int.ofNat (reg.map
            (fun p => p.2.viewers.length + (if p.2.streamer.isSome then 1 else 0))).sum))]

/-- Membership of a connection in a room, as recorded by the registry. -/
def recordedIn (room : Room) (ws : Conn) : Prop :=
  room.streamer = some ws ∨ ws ∈ room.viewers

instance (room : Room) (ws : Conn) : Decidable (recordedIn room ws) := by
  unfold recordedIn; infer_instance

/-- C1: at every instant of any sequence of connect, frame and disconnect events —
equivalently, after every such sequence, since every prefix is one — each room in
the registry records at most one connection as its publisher: the `streamer` slot
holds no connection or exactly one. -/
theorem at_most_one_publisher (reg0 : Registry) (evs : List Event) (room_id : String)
    (room : Room) (h : (runEvents reg0 evs).lookup room_id = some room) :
    publisherCount room ≤ 1 := by
  cases hr : room.streamer <;> simp [publisherCount, hr]

/-- Witness for C1: a concrete run with one publisher join. -/
theorem at_most_one_publisher_witness :
    (runEvents [] [Event.connect "default" "streamer" 0]).lookup "default" =
      some ⟨some 0, []⟩ ∧
    publisherCount ⟨some 0, []⟩ ≤ 1 :=
  ⟨by decide,
   at_most_one_publisher [] [Event.connect "default" "streamer" 0] "default"
     ⟨some 0, []⟩ (by decide)⟩

/-- C2 counterexample: for the room whose publisher is connection 0, a second
publisher join by connection 1 is not answered with the object
`{type: 'error', message: 'room already has a streamer'}` — the code capitalises
the message as 'Room already has a streamer'. -/
theorem rejection_text_differs :
    (websocket_handler ⟨some 0, []⟩ "streamer" 1 []).errorToClient ≠
      some (Json.obj [("type", Json.str "error"),
                      ("message", Json.str "room already has a streamer")]) := by
  intro h
  simp [websocket_handler, joinRoom, rejectionMessage] at h

/-- C2 (amended): a publisher join to a room with an occupied streamer slot is
rejected: the joiner is sent exactly one structured object
`{type: 'error', message: 'Room already has a streamer'}` (with a capital R, as
the code spells it), its connection is closed, nothing is forwarded, and the
room's publisher and viewer set are left unchanged. -/
theorem second_publisher_rejected (room : Room) (p ws : Conn) (msgs : List InMsg)
    (hp : room.streamer = some p) :
    (websocket_handler room "streamer" ws msgs).errorToClient =
        some (Json.obj [("type", Json.str "error"),
                        ("message", Json.str "Room already has a streamer")]) ∧
    (websocket_handler room "streamer" ws msgs).closedByServer = true ∧
    (websocket_handler room "streamer" ws msgs).sends = [] ∧
    (websocket_handler room "streamer" ws msgs).room = room := by
  simp [websocket_handler, joinRoom, hp, rejectionMessage]

/-- Witness for C2 (amended) at a concrete occupied room. -/
theorem second_publisher_rejected_witness :
    (⟨some 0, [5]⟩ : Room).streamer = some 0 ∧
    (websocket_handler ⟨some 0, [5]⟩ "streamer" 1 [InMsg.wsError]).room =
      ⟨some 0, [5]⟩ :=
  ⟨rfl, (second_publisher_rejected ⟨some 0, [5]⟩ 0 1 [InMsg.wsError] rfl).2.2.2⟩

/-- C4: the disconnect cleanup clears the streamer slot only when it still holds
the departing connection (a departing old publisher never clears a replacement);
a viewer leave removes the connection from the viewer set unconditionally, and
removing an absent viewer is a no-op. -/
theorem leave_compare_before_clear (room : Room) (ws : Conn) (ct : String) :
    (room.streamer = some ws →
      cleanupRoom room "streamer" ws = { room with streamer := none }) ∧
    (room.streamer ≠ some ws →
      (cleanupRoom room "streamer" ws).streamer = room.streamer) ∧
    (ct ≠ "streamer" →
      cleanupRoom room ct ws = { room with viewers := room.viewers.erase ws }) ∧
    (ct ≠ "streamer" → ws ∉ room.viewers → cleanupRoom room ct ws = room) := by
  refine ⟨fun h => by simp [cleanupRoom, h],
          fun h => by simp [cleanupRoom, h],
          fun h => by simp [cleanupRoom, h],
          fun h h2 => by simp [cleanupRoom, h, List.erase_of_not_mem h2]⟩

/-- Witness for C4: clearing the matching publisher and the absent-viewer no-op. -/
theorem leave_compare_before_clear_witness :
    (⟨some 3, [7]⟩ : Room).streamer = some 3 ∧ (3 : Conn) ∉ ([7] : List Conn) ∧
    cleanupRoom ⟨some 3, [7]⟩ "streamer" 3 = ⟨none, [7]⟩ ∧
    cleanupRoom ⟨some 3, [7]⟩ "viewer" 3 = ⟨some 3, [7]⟩ := by
  have h := leave_compare_before_clear ⟨some 3, [7]⟩ 3 "viewer"
  exact ⟨rfl, by decide, h.1 rfl, h.2.2.2 (by decide) (by decide)⟩

/-- C8: a join whose type is not 'streamer' is always accepted, whether or not a
publisher is present: the connection is added to the viewer set, the streamer
slot is untouched, and adding an already-present viewer changes nothing. -/
theorem subscriber_join_always_accepted (room : Room) (ct : String) (ws : Conn)
    (hct : ct ≠ "streamer") :
    (joinRoom room ct ws).2 = JoinResult.accepted ∧
    (joinRoom room ct ws).1.streamer = room.streamer ∧
    (joinRoom room ct ws).1.viewers = room.viewers.insert ws ∧
    (ws ∈ room.viewers → (joinRoom room ct ws).1 = room) := by
  refine ⟨by simp [joinRoom, hct], by simp [joinRoom, hct], by simp [joinRoom, hct],
          fun h => by simp [joinRoom, hct, List.insert_of_mem h]⟩

/-- Witness for C8: joining as a viewer into a room that already has a publisher,
with the idempotent re-add of viewer 4. -/
theorem subscriber_join_always_accepted_witness :
    ("viewer" : String) ≠ "streamer" ∧ (4 : Conn) ∈ ([4] : List Conn) ∧
    (joinRoom ⟨some 9, [4]⟩ "viewer" 4).2 = JoinResult.accepted ∧
    (joinRoom ⟨some 9, [4]⟩ "viewer" 4).1 = ⟨some 9, [4]⟩ := by
  have h := subscriber_join_always_accepted ⟨some 9, [4]⟩ "viewer" 4 (by decide)
  exact ⟨by decide, by decide, h.1, h.2.2.2 (by decide)⟩

/-- C3: a TEXT frame that decodes to a mapping is forwarded verbatim (the original
raw payload): sent by the streamer it reaches every current viewer exactly once
(when no send fails) and the room is unchanged; sent by a viewer it reaches the
publisher exactly once when one is present, and is silently dropped — no delivery,
no state change, no error back — when none is present. -/
theorem forward_verbatim (room : Room) (raw : String) (fields : List (String × Json))
    (fails : Conn → Bool) (ct : String) (hct : ct ≠ "streamer")
    (hnd : room.viewers.Nodup) (hok : ∀ v ∈ room.viewers, fails v = false) :
    ((handleText room "streamer" (some (Json.obj fields)) raw fails).1 = room ∧
     (handleText room "streamer" (some (Json.obj fields)) raw fails).2 =
        room.viewers.map (fun v => (v, raw)) ∧
     (handleText room "streamer" (some (Json.obj fields)) raw fails).2.Nodup ∧
     ∀ v, (v, raw) ∈ (handleText room "streamer" (some (Json.obj fields)) raw fails).2 ↔
       v ∈ room.viewers) ∧
    (∀ s, room.streamer = some s → fails s = false →
      handleText room ct (some (Json.obj fields)) raw fails = (room, [(s, raw)])) ∧
    (room.streamer = none →
      handleText room ct (some (Json.obj fields)) raw fails = (room, [])) := by
  have hk : room.viewers.filter (fun v => !fails v) = room.viewers :=
    List.filter_eq_self.mpr (fun v hv => by simp [hok v hv])
  have hsends : (handleText room "streamer" (some (Json.obj fields)) raw fails).2 =
      room.viewers.map (fun v => (v, raw)) := by
    simp [handleText, Json.dictGet, hk]
  have hinj : Function.Injective (fun v : Conn => (v, raw)) := by
    intro a b hab
    simpa using congrArg Prod.fst hab
  refine ⟨⟨?_, hsends, ?_, ?_⟩, ?_, ?_⟩
  · simp [handleText, Json.dictGet, hk]
  · rw [hsends]
    exact hnd.map hinj
  · intro v
    rw [hsends]
    simp [List.mem_map]
  · intro s hs hf
    simp [handleText, Json.dictGet, hct, hs, hf]
  · intro hs
    simp [handleText, Json.dictGet, hct, hs]

/-- Witness for C3: a room with publisher 5 and viewers 2 and 3, the frame
`{"type": "offer"}` with raw text "m", and no injected send failures. -/
theorem forward_verbatim_witness :
    ("viewer" : String) ≠ "streamer" ∧ ([2, 3] : List Conn).Nodup ∧
    (∀ v ∈ ([2, 3] : List Conn), (fun _ => false : Conn → Bool) v = false) ∧
    (handleText ⟨some 5, [2, 3]⟩ "streamer"
        (some (Json.obj [("type", Json.str "offer")])) "m" (fun _ => false)).2 =
      [(2, "m"), (3, "m")] ∧
    handleText ⟨some 5, [2, 3]⟩ "viewer"
        (some (Json.obj [("type", Json.str "offer")])) "m" (fun _ => false) =
      (⟨some 5, [2, 3]⟩, [(5, "m")]) := by
  have h := forward_verbatim ⟨some 5, [2, 3]⟩ "m" [("type", Json.str "offer")]
    (fun _ => false) "viewer" (by decide) (by decide) (by decide)
  exact ⟨by decide, by decide, by decide, h.1.2.1, h.2.1 5 rfl rfl⟩

/-- Reduction of the streamer fan-out branch of `handleText`: every viewer in the
copy is attempted; the failing ones are discarded, the others stay and receive. -/
theorem handleText_streamer_eq (room : Room) (fields : List (String × Json))
    (raw : String) (fails : Conn → Bool) :
    handleText room "streamer" (some (Json.obj fields)) raw fails =
      ({ room with viewers := room.viewers.filter (fun w => !fails w) },
       (room.viewers.filter (fun w => !fails w)).map (fun w => (w, raw))) := by
  simp [handleText, Json.dictGet]

/-- A non-mapping decoded value has no `.get` attribute: the lookup faults. -/
theorem dictGet_eq_none_of_not_obj (j : Json) (hj : j.isObj = false) (key : String) :
    j.dictGet key = none := by
  cases j <;> first | rfl | simp [Json.isObj] at hj

/-- C6: injected send failures evict exactly the unreachable peer.  In a streamer
fan-out, a failing viewer is removed from the viewer set, receives nothing from
this frame nor from any later fan-out, while every non-failing viewer stays
registered and receives the payload; the sender's streamer slot is untouched.  In
a viewer's forward, a failing send to the publisher clears the streamer slot and
delivers nothing; in both cases the send is not retried and no error message is
produced for the sender. -/
theorem eviction_on_send_failure (room : Room) (raw raw2 : String)
    (fields fields2 : List (String × Json)) (fails fails2 : Conn → Bool)
    (ct : String) (hct : ct ≠ "streamer")
    (v : Conn) (hv : v ∈ room.viewers) (hfail : fails v = true) :
    (v ∉ (handleText room "streamer" (some (Json.obj fields)) raw fails).1.viewers ∧
     (∀ p, (v, p) ∉ (handleText room "streamer" (some (Json.obj fields)) raw fails).2) ∧
     (∀ p, (v, p) ∉
        (handleText (handleText room "streamer" (some (Json.obj fields)) raw fails).1
          "streamer" (some (Json.obj fields2)) raw2 fails2).2) ∧
     (∀ w ∈ room.viewers, fails w = false →
        w ∈ (handleText room "streamer" (some (Json.obj fields)) raw fails).1.viewers ∧
        (w, raw) ∈ (handleText room "streamer" (some (Json.obj fields)) raw fails).2) ∧
     (handleText room "streamer" (some (Json.obj fields)) raw fails).1.streamer =
        room.streamer) ∧
    (∀ s, room.streamer = some s → fails s = true →
      handleText room ct (some (Json.obj fields)) raw fails =
        ({ room with streamer := none }, [])) := by
  refine ⟨⟨?_, ?_, ?_, ?_, ?_⟩, ?_⟩
  · rw [handleText_streamer_eq]
    simp [List.mem_filter, hfail]
  · intro p hm
    rw [handleText_streamer_eq] at hm
    rcases List.mem_map.mp hm with ⟨a, ha, hae⟩
    have hav : a = v := congrArg Prod.fst hae
    rcases List.mem_filter.mp ha with ⟨-, hfa⟩
    rw [hav, hfail] at hfa
    exact Bool.false_ne_true (by simpa using hfa)
  · intro p hm
    rw [handleText_streamer_eq, handleText_streamer_eq] at hm
    rcases List.mem_map.mp hm with ⟨a, ha, hae⟩
    have hav : a = v := congrArg Prod.fst hae
    rcases List.mem_filter.mp ha with ⟨ha2, -⟩
    rcases List.mem_filter.mp ha2 with ⟨-, hfa⟩
    rw [hav, hfail] at hfa
    exact Bool.false_ne_true (by simpa using hfa)
  · intro w hw hfw
    rw [handleText_streamer_eq]
    refine ⟨List.mem_filter.mpr ⟨hw, by simp [hfw]⟩, ?_⟩
    exact List.mem_map.mpr ⟨w, List.mem_filter.mpr ⟨hw, by simp [hfw]⟩, rfl⟩
  · rw [handleText_streamer_eq]
  · intro s hs hfs
    simp [handleText, Json.dictGet, hct, hs, hfs]

/-- Witness for C6: publisher 9, viewers 2 and 3, and sends to 2 and 9 failing. -/
theorem eviction_on_send_failure_witness :
    ("viewer" : String) ≠ "streamer" ∧ (2 : Conn) ∈ ([2, 3] : List Conn) ∧
    (fun c : Conn => c == 2 || c == 9) 2 = true ∧
    (2 : Conn) ∉ (handleText ⟨some 9, [2, 3]⟩ "streamer"
      (some (Json.obj [("type", Json.str "offer")])) "x"
      (fun c => c == 2 || c == 9)).1.viewers ∧
    ((3 : Conn), "x") ∈ (handleText ⟨some 9, [2, 3]⟩ "streamer"
      (some (Json.obj [("type", Json.str "offer")])) "x"
      (fun c => c == 2 || c == 9)).2 ∧
    handleText ⟨some 9, [2, 3]⟩ "viewer"
      (some (Json.obj [("type", Json.str "offer")])) "x"
      (fun c => c == 2 || c == 9) = (⟨none, [2, 3]⟩, []) := by
  have h := eviction_on_send_failure ⟨some 9, [2, 3]⟩ "x" "y"
    [("type", Json.str "offer")] [("type", Json.str "offer")]
    (fun c => c == 2 || c == 9) (fun _ => false) "viewer"
    (by decide) 2 (by decide) (by decide)
  exact ⟨by decide, by decide, by decide, h.1.1,
    (h.1.2.2.2.1 3 (by decide) (by decide)).2, h.2 9 rfl (by decide)⟩

/-- C7: a TEXT frame that fails to decode, and a frame whose per-message
processing faults (the attribute lookup on a non-mapping payload), are discarded
silently: nothing is forwarded, the room is unchanged, and the receive loop
continues with the remaining frames exactly as if the bad frame had not arrived —
no single bad message terminates the connection. -/
theorem bad_message_discarded (room : Room) (ct raw : String) (fails : Conn → Bool)
    (rest : List InMsg) (j : Json) (hj : j.isObj = false) :
    handleText room ct none raw fails = (room, []) ∧
    handleText room ct (some j) raw fails = (room, []) ∧
    receiveLoop ct room (.text raw none fails :: rest) = receiveLoop ct room rest ∧
    receiveLoop ct room (.text raw (some j) fails :: rest) =
      receiveLoop ct room rest := by
  have h2 : handleText room ct (some j) raw fails = (room, []) := by
    simp [handleText, dictGet_eq_none_of_not_obj j hj]
  refine ⟨rfl, h2, rfl, ?_⟩
  simp [receiveLoop, h2]

/-- Witness for C7: an undecodable frame and a decodable non-mapping frame in
front of an empty tail. -/
theorem bad_message_discarded_witness :
    (Json.num 5).isObj = false ∧
    handleText ⟨some 1, [2]⟩ "viewer" none "oops" (fun _ => false) =
      (⟨some 1, [2]⟩, []) ∧
    receiveLoop "viewer" ⟨some 1, [2]⟩
        [InMsg.text "5" (some (Json.num 5)) (fun _ => false)] =
      receiveLoop "viewer" ⟨some 1, [2]⟩ [] := by
  have h := bad_message_discarded ⟨some 1, [2]⟩ "viewer" "oops" (fun _ => false)
    [] (Json.num 5) (by decide)
  exact ⟨by decide, h.1, h.2.2.2⟩

/-- C10: a TEXT frame whose payload decodes to a JSON value that is not an object
— a bare string, number, array, boolean or null — is silently discarded: the
`.get` lookup on it faults, the fault is swallowed by the per-message handler,
nothing is forwarded, the room is unchanged, and the loop continues with the
remaining frames. -/
theorem non_object_payload_discarded (room : Room) (ct raw : String)
    (fails : Conn → Bool) (rest : List InMsg) (j : Json) (hj : j.isObj = false) :
    handleText room ct (some j) raw fails = (room, []) ∧
    receiveLoop ct room (.text raw (some j) fails :: rest) =
      receiveLoop ct room rest := by
  have h2 : handleText room ct (some j) raw fails = (room, []) := by
    simp [handleText, dictGet_eq_none_of_not_obj j hj]
  refine ⟨h2, ?_⟩
  simp [receiveLoop, h2]

/-- Witness for C10: a bare JSON string payload in front of a live tail frame. -/
theorem non_object_payload_discarded_witness :
    (Json.str "hello").isObj = false ∧
    handleText ⟨some 1, [2]⟩ "streamer" (some (Json.str "hello")) "s"
        (fun _ => false) = (⟨some 1, [2]⟩, []) ∧
    receiveLoop "streamer" ⟨some 1, [2]⟩
        [InMsg.text "s" (some (Json.str "hello")) (fun _ => false),
         InMsg.text "ok" (some (Json.obj [("type", Json.str "offer")])) (fun _ => false)] =
      receiveLoop "streamer" ⟨some 1, [2]⟩
        [InMsg.text "ok" (some (Json.obj [("type", Json.str "offer")])) (fun _ => false)] := by
  have h := non_object_payload_discarded ⟨some 1, [2]⟩ "streamer" "s" (fun _ => false)
    [InMsg.text "ok" (some (Json.obj [("type", Json.str "offer")])) (fun _ => false)]
    (Json.str "hello") (by decide)
  exact ⟨by decide, h.1, h.2⟩

/-- Shape of one `handleText` step: the viewer set is either untouched or shrunk
to the non-failing viewers; the streamer slot is either untouched or cleared; and
a frame sent by the streamer itself never modifies the streamer slot. -/
theorem handleText_shape (room : Room) (ct : String) (dec : Option Json)
    (raw : String) (fails : Conn → Bool) :
    ((handleText room ct dec raw fails).1.viewers = room.viewers ∨
     (handleText room ct dec raw fails).1.viewers =
       room.viewers.filter (fun w => !fails w)) ∧
    ((handleText room ct dec raw fails).1.streamer = room.streamer ∨
     (handleText room ct dec raw fails).1.streamer = none) ∧
    (ct = "streamer" →
      (handleText room ct dec raw fails).1.streamer = room.streamer) := by
  cases dec with
  | none => exact ⟨Or.inl rfl, Or.inl rfl, fun _ => rfl⟩
  | some data =>
    cases hd : data.dictGet "type" with
    | none =>
      have hred : handleText room ct (some data) raw fails = (room, []) := by
        simp [handleText, hd]
      rw [hred]
      exact ⟨Or.inl rfl, Or.inl rfl, fun _ => rfl⟩
    | some t =>
      by_cases hc : ct = "streamer"
      · subst hc
        have hred : (handleText room "streamer" (some data) raw fails).1 =
            { room with viewers := room.viewers.filter (fun w => !fails w) } := by
          simp [handleText, hd]
        rw [hred]
        exact ⟨Or.inr rfl, Or.inl rfl, fun _ => rfl⟩
      · cases hs : room.streamer with
        | none =>
          have hred : handleText room ct (some data) raw fails = (room, []) := by
            simp [handleText, hd, hc, hs]
          rw [hred]
          exact ⟨Or.inl rfl, Or.inl hs, fun h => absurd h hc⟩
        | some s =>
          cases hf : fails s with
          | true =>
            have hred : handleText room ct (some data) raw fails =
                ({ room with streamer := none }, []) := by
              simp [handleText, hd, hc, hs, hf]
            rw [hred]
            exact ⟨Or.inl rfl, Or.inr rfl, fun h => absurd h hc⟩
          | false =>
            have hred : handleText room ct (some data) raw fails =
                (room, [(s, raw)]) := by
              simp [handleText, hd, hc, hs, hf]
            rw [hred]
            exact ⟨Or.inl rfl, Or.inl hs, fun h => absurd h hc⟩

/-- Shape of a whole receive-loop run: no viewer is ever added, duplicate-freeness
of the viewer set is preserved, the streamer slot is only ever kept or cleared,
and a loop driven by the streamer itself leaves the streamer slot unchanged. -/
theorem receiveLoop_shape (ct : String) (msgs : List InMsg) :
    ∀ room : Room,
      (∀ w, w ∈ (receiveLoop ct room msgs).1.viewers → w ∈ room.viewers) ∧
      (room.viewers.Nodup → (receiveLoop ct room msgs).1.viewers.Nodup) ∧
      ((receiveLoop ct room msgs).1.streamer = room.streamer ∨
       (receiveLoop ct room msgs).1.streamer = none) ∧
      (ct = "streamer" →
        (receiveLoop ct room msgs).1.streamer = room.streamer) := by
  induction msgs with
  | nil => exact fun room => ⟨fun w h => h, fun h => h, Or.inl rfl, fun _ => rfl⟩
  | cons m rest ih =>
    intro room
    cases m with
    | text raw dec fails =>
      have hshape := handleText_shape room ct dec raw fails
      have hrec := ih (handleText room ct dec raw fails).1
      have hred : (receiveLoop ct room (.text raw dec fails :: rest)).1 =
          (receiveLoop ct (handleText room ct dec raw fails).1 rest).1 := rfl
      rw [hred]
      refine ⟨?_, ?_, ?_, ?_⟩
      · intro w hw
        have hw2 := hrec.1 w hw
        rcases hshape.1 with h | h
        · rw [h] at hw2; exact hw2
        · rw [h] at hw2; exact List.mem_of_mem_filter hw2
      · intro hnd
        apply hrec.2.1
        rcases hshape.1 with h | h
        · rw [h]; exact hnd
        · rw [h]; exact hnd.filter _
      · rcases hrec.2.2.1 with h | h
        · rw [h]; exact hshape.2.1
        · exact Or.inr h
      · intro hcs
        rw [hrec.2.2.2 hcs]
        exact hshape.2.2 hcs
    | wsError => exact ⟨fun w h => h, fun h => h, Or.inl rfl, fun _ => rfl⟩
    | otherFrame => exact ih room
    | transportFault => exact ⟨fun w h => h, fun h => h, Or.inl rfl, fun _ => rfl⟩

/-- C5: with a fresh connection (not yet recorded in the room), an accepted join
runs the cleanup exactly once whichever way the receive loop ends — exhausted
stream, ERROR frame, or transport fault — and afterwards the connection is no
longer recorded in the room, neither as streamer nor as viewer; a rejected
publisher join performs no registration and no cleanup, leaves the room exactly
as it was, and the connection is likewise not recorded. -/
theorem deregistration_exactly_once (room0 : Room) (ct : String) (ws : Conn)
    (msgs : List InMsg) (hs : room0.streamer ≠ some ws) (hv : ws ∉ room0.viewers)
    (hnd : room0.viewers.Nodup) :
    ((joinRoom room0 ct ws).2 = JoinResult.accepted →
      (websocket_handler room0 ct ws msgs).leaveRuns = 1) ∧
    ((joinRoom room0 ct ws).2 = JoinResult.rejected →
      (websocket_handler room0 ct ws msgs).leaveRuns = 0 ∧
      (websocket_handler room0 ct ws msgs).room = room0) ∧
    ¬ recordedIn (websocket_handler room0 ct ws msgs).room ws := by
  by_cases hc : ct = "streamer"
  · subst hc
    cases hstr : room0.streamer with
    | some p =>
      have hj : joinRoom room0 "streamer" ws = (room0, JoinResult.rejected) := by
        simp [joinRoom, hstr]
      have hw : websocket_handler room0 "streamer" ws msgs =
          { room := room0, sends := [], errorToClient := some rejectionMessage,
            closedByServer := true, leaveRuns := 0 } := by
        simp [websocket_handler, hj]
      rw [hw, hj]
      refine ⟨fun h => JoinResult.noConfusion h, fun _ => ⟨rfl, rfl⟩, ?_⟩
      intro hr
      have hr2 : room0.streamer = some ws ∨ ws ∈ room0.viewers := hr
      rcases hr2 with h | h
      · exact hs h
      · exact hv h
    | none =>
      have hj : joinRoom room0 "streamer" ws =
          ({ room0 with streamer := some ws }, JoinResult.accepted) := by
        simp [joinRoom, hstr]
      have hw : websocket_handler room0 "streamer" ws msgs =
          { room := cleanupRoom
              (receiveLoop "streamer" { room0 with streamer := some ws } msgs).1
              "streamer" ws,
            sends := (receiveLoop "streamer" { room0 with streamer := some ws } msgs).2,
            errorToClient := none, closedByServer := false, leaveRuns := 1 } := by
        simp [websocket_handler, hj]
      have hloop := receiveLoop_shape "streamer" msgs { room0 with streamer := some ws }
      have hstay : (receiveLoop "streamer" { room0 with streamer := some ws } msgs).1.streamer =
          some ws := hloop.2.2.2 rfl
      have hclean : cleanupRoom
          (receiveLoop "streamer" { room0 with streamer := some ws } msgs).1
          "streamer" ws =
          { (receiveLoop "streamer" { room0 with streamer := some ws } msgs).1 with
            streamer := none } := by
        simp [cleanupRoom, hstay]
      rw [hw, hj]
      refine ⟨fun _ => rfl, fun h => JoinResult.noConfusion h, ?_⟩
      rw [hclean]
      intro hr
      have hr2 : ({ (receiveLoop "streamer" { room0 with streamer := some ws } msgs).1 with
          streamer := none } : Room).streamer = some ws ∨
          ws ∈ ({ (receiveLoop "streamer" { room0 with streamer := some ws } msgs).1 with
          streamer := none } : Room).viewers := hr
      rcases hr2 with h | h
      · exact Option.noConfusion h
      · exact hv (hloop.1 ws h)
  · have hj : joinRoom room0 ct ws =
        ({ room0 with viewers := room0.viewers.insert ws }, JoinResult.accepted) := by
      simp [joinRoom, hc]
    have hw : websocket_handler room0 ct ws msgs =
        { room := cleanupRoom
            (receiveLoop ct { room0 with viewers := room0.viewers.insert ws } msgs).1
            ct ws,
          sends := (receiveLoop ct { room0 with viewers := room0.viewers.insert ws } msgs).2,
          errorToClient := none, closedByServer := false, leaveRuns := 1 } := by
      simp [websocket_handler, hj]
    have hloop := receiveLoop_shape ct msgs { room0 with viewers := room0.viewers.insert ws }
    have hnd2 : (receiveLoop ct { room0 with viewers := room0.viewers.insert ws } msgs).1.viewers.Nodup :=
      hloop.2.1 hnd.insert
    have hsno : (receiveLoop ct { room0 with viewers := room0.viewers.insert ws } msgs).1.streamer ≠
        some ws := by
      rcases hloop.2.2.1 with h | h
      · rw [h]; exact hs
      · rw [h]; exact fun hn => by cases hn
    have hclean : cleanupRoom
        (receiveLoop ct { room0 with viewers := room0.viewers.insert ws } msgs).1 ct ws =
        { (receiveLoop ct { room0 with viewers := room0.viewers.insert ws } msgs).1 with
          viewers := (receiveLoop ct { room0 with viewers := room0.viewers.insert ws } msgs).1.viewers.erase ws } := by
      simp [cleanupRoom, hc]
    rw [hw, hj]
    refine ⟨fun _ => rfl, fun h => JoinResult.noConfusion h, ?_⟩
    rw [hclean]
    intro hr
    have hr2 : (receiveLoop ct { room0 with viewers := room0.viewers.insert ws } msgs).1.streamer = some ws ∨
        ws ∈ (receiveLoop ct { room0 with viewers := room0.viewers.insert ws } msgs).1.viewers.erase ws := hr
    rcases hr2 with h | h
    · exact hsno h
    · exact hnd2.not_mem_erase h

/-- Witness for C5: a fresh publisher joining an empty room, loop ended by a
transport fault. -/
theorem deregistration_exactly_once_witness :
    (⟨none, []⟩ : Room).streamer ≠ some 1 ∧ (1 : Conn) ∉ ([] : List Conn) ∧
    ([] : List Conn).Nodup ∧
    (joinRoom ⟨none, []⟩ "streamer" 1).2 = JoinResult.accepted ∧
    (websocket_handler ⟨none, []⟩ "streamer" 1 [InMsg.transportFault]).leaveRuns = 1 ∧
    ¬ recordedIn (websocket_handler ⟨none, []⟩ "streamer" 1 [InMsg.transportFault]).room 1 := by
  have h := deregistration_exactly_once ⟨none, []⟩ "streamer" 1 [InMsg.transportFault]
    (by decide) (by decide) (by decide)
  exact ⟨by decide, by decide, by decide, by decide, h.1 (by decide), h.2.2⟩

/-- Number of connections one group contributes to the status report, following
the spec's words: the subscriber-set size plus one if a publisher is present. -/
def Room.liveCount (room : Room) : Nat :=
  room.viewers.length + match room.streamer with | some _ => 1 | none => 0

/-- The spec's `Registry.snapshot()`: a point-in-time pair of the group count and
the active-connection count, the latter accumulated over all groups. -/
def snapshot (reg : Registry) : Nat × Nat :=
  (reg.length, reg.foldl (fun acc p => acc + p.2.liveCount) 0)

/-- Accumulating `liveCount` over the registry equals the mapped sum computed by
the health endpoint. -/
theorem foldl_liveCount (reg : Registry) (n : Nat) :
    reg.foldl (fun acc p => acc + p.2.liveCount) n =
      n + (reg.map (fun p => p.2.viewers.length +
        (if p.2.streamer.isSome then 1 else 0))).sum := by
  induction reg generalizing n with
  | nil => simp
  | cons hd tl ih =>
    simp only [List.foldl_cons, List.map_cons, List.sum_cons, ih]
    have hlc : hd.2.liveCount =
        hd.2.viewers.length + (if hd.2.streamer.isSome then 1 else 0) := by
      cases h : hd.2.streamer <;> simp [Room.liveCount, h]
    rw [hlc]
    omega

/-- C9: the status query returns status "ok", the number of groups in the
registry, and the sum over all groups of the subscriber-set size plus one when
that group's publisher is present — exactly the registry snapshot. -/
theorem health_reports_snapshot (reg : Registry) :
    health_handler reg =
      Json.obj [("status", Json.str "ok"),
                ("rooms", Json.num (Int.ofNat (snapshot reg).1)),
                ("active_connections", Json.num (Int.ofNat (snapshot reg).2))] := by
  have h2 : (snapshot reg).2 = (reg.map (fun p => p.2.viewers.length +
      (if p.2.streamer.isSome then 1 else 0))).sum :=
    (foldl_liveCount reg 0).trans (Nat.zero_add _)
  unfold health_handler
  rw [h2]
  rfl
